import Mathlib

/-!
Shallow embedding of the automated news crawler's orchestration core
(src/main.py, src/utils/scraper_utils.py, src/utils/api_scraper.py,
src/config.py).  A raw extracted item (a JSON object of string fields) is
modelled as an association list from field name to string value; the
external crawling engine is abstracted as a `PageSpec` describing what one
page-fetch attempt observes.
-/

namespace NewsCrawler

/-- A raw extracted item: a JSON object row, modelled as an association
list from field name to string value (first binding wins, as in a dict). -/
abbrev RawRecord := List (String × String)

/-- Dictionary lookup, mirroring Python's `dict.get(k)`. -/
def getField (r : RawRecord) (k : String) : Option String :=
  (r.find? (fun p => p.fst == k)).map Prod.snd

/-- Dictionary lookup with default, mirroring Python's `dict.get(k, d)`. -/
def getD (r : RawRecord) (k d : String) : String :=
  (getField r k).getD d

/-- `REQUIRED_KEYS` from src/config.py. -/
def REQUIRED_KEYS : List String :=
  ["title", "description", "url", "publishtime", "provider"]

/-- Modelled from the spec: `is_complete_news` lives in
`utils/data_utils.py`, which is not present under src/.  Per the spec's
Record Validator contract, "a record is accepted only if it carries
non-empty values for `title`, `description`, `url`, `publishtime`,
`provider`"; a record missing one or more of these is rejected. -/
def is_complete_news (news : RawRecord) (required_keys : List String) : Bool :=
  required_keys.all (fun k => getD news k "" != "")

/-- Strip leading and trailing whitespace from a character list. -/
def trimChars (l : List Char) : List Char :=
  ((l.dropWhile Char.isWhitespace).reverse.dropWhile Char.isWhitespace).reverse

/-- Strip leading and trailing whitespace from a string (an executable
model of Python's `str.strip()`). -/
def strTrim (s : String) : String :=
  String.mk (trimChars s.data)

/-- Modelled from the spec: `is_duplicate_news` lives in
`utils/data_utils.py`, which is not present under src/.  Per the spec's
Session Deduplicator contract, "a record is rejected as duplicate if its
`title` exactly matches (byte-for-byte, post-trim) a title already in
`seenTitles` for the current session". -/
def is_duplicate_news (title : String) (seen : List String) : Bool :=
  seen.any (fun s => strTrim s == strTrim title)

/-- Python truthiness of `news.get("error")` in `fetch_and_process_page`:
the error flag is set when the key is present with a non-empty value. -/
def hasErrorFlag (r : RawRecord) : Bool :=
  getD r "error" "" != ""

/-- `news.pop("error", None)` in `fetch_and_process_page`. -/
def eraseError (r : RawRecord) : RawRecord :=
  r.filter (fun p => p.fst != "error")

/-- `news.get("title", "")`. -/
def titleOf (r : RawRecord) : String :=
  getD r "title" ""

/-- Key-presence check for the five required fields (the shape of the
`missing_keys` diagnostic in `fetch_and_process_page`). -/
def hasRequiredKeys (r : RawRecord) : Bool :=
  REQUIRED_KEYS.all (fun k => (getField r k).isSome)

/-- The per-record validation/deduplication loop of
`fetch_and_process_page` (src/utils/scraper_utils.py lines 207-245):
skip error-flagged items, drop the error key, reject incomplete records,
reject empty titles, reject duplicate titles, and otherwise add the title
to the seen set before appending the record to the page's valid batch.
Returns the valid batch together with the updated seen set. -/
def processBatch (rk : List String) :
    List RawRecord → List String → List RawRecord × List String
  | [], seen => ([], seen)
  | news :: rest, seen =>
    if hasErrorFlag news then processBatch rk rest seen
    else if !(is_complete_news (eraseError news) rk) then processBatch rk rest seen
    else if titleOf (eraseError news) == "" then processBatch rk rest seen
    else if is_duplicate_news (titleOf (eraseError news)) seen then
      processBatch rk rest seen
    else
      let r := processBatch rk rest (titleOf (eraseError news) :: seen)
      (eraseError news :: r.1, r.2)

/-- What one page-fetch attempt observes from the external engine:
whether the terminal "No Results Found" marker is present on the rendered
page, and the parsed extraction payload (`none` models a fetch failure,
an extraction-level error, a parse failure, or an empty payload —
everything `fetch_and_process_page` maps to the transient `([], False)`
outcome before record processing). -/
structure PageSpec where
  marker : Bool
  items : Option (List RawRecord)
deriving DecidableEq

/-- `check_no_results` (src/utils/scraper_utils.py): the terminal-marker
probe, abstracted over the observed page. -/
def check_no_results (p : PageSpec) : Bool :=
  p.marker

/-- Result of one `fetch_and_process_page` call: the page's valid batch,
the no-results flag, the updated seen set, and whether the
content-extraction call was made. -/
structure FetchResult where
  news : List RawRecord
  noResultsFound : Bool
  seen : List String
  extractionAttempted : Bool
deriving DecidableEq

/-- `fetch_and_process_page` (src/utils/scraper_utils.py lines 120-252):
probe for the terminal marker first and return `([], True)` without any
extraction call if it is present; otherwise run extraction, map every
failure/empty payload to `([], False)`, and otherwise run the
validation/dedup loop over the parsed batch. -/
def fetch_and_process_page (p : PageSpec) (rk : List String)
    (seen : List String) : FetchResult :=
  if check_no_results p then ⟨[], true, seen, false⟩
  else
    match p.items with
    | none => ⟨[], false, seen, true⟩
    | some data =>
      if data.isEmpty then ⟨[], false, seen, true⟩
      else
        let r := processBatch rk data seen
        ⟨r.1, false, r.2, true⟩

/-- Result of the bounded retry loop around `fetch_and_process_page`
(src/main.py lines 37-50): the last attempt's batch and no-results flag,
the updated seen set, the number of fetch attempts made, the number of
content-extraction calls made, and the log of backoff waits (in seconds)
performed after failed attempts. -/
structure RetryResult where
  news : List RawRecord
  noResultsFound : Bool
  seen : List String
  attempts : Nat
  extractions : Nat
  waits : List Nat
deriving DecidableEq

/-- The body of `for attempt in range(3)` in `crawl_scraper_source`
(src/main.py lines 39-50): each pending attempt index calls
`fetch_and_process_page`, breaks on the first attempt with a non-empty
batch or the no-results flag, and otherwise sleeps 5 seconds and moves to
the next attempt.  `atts` is the list of remaining attempt indices. -/
def retryGo (fetchA : Nat → PageSpec) (rk : List String) :
    List Nat → List String → Nat → Nat → List Nat → RetryResult
  | [], seen, att, exs, ws => ⟨[], false, seen, att, exs, ws⟩
  | a :: rest, seen, att, exs, ws =>
    let r := fetch_and_process_page (fetchA a) rk seen
    let exs1 := exs + (if r.extractionAttempted then 1 else 0)
    if !r.news.isEmpty || r.noResultsFound then
      ⟨r.news, r.noResultsFound, r.seen, att + 1, exs1, ws⟩
    else
      retryGo fetchA rk rest r.seen (att + 1) exs1 (ws ++ [5])

/-- The full three-attempt retry loop for one page (src/main.py
lines 37-50). -/
def retryFetchPage (fetchA : Nat → PageSpec) (rk : List String)
    (seen : List String) : RetryResult :=
  retryGo fetchA rk [0, 1, 2] seen 0 0 []

/-- Why the pagination loop of `crawl_scraper_source` stopped:
the no-results marker, an empty batch after retries, the page cap, or
(never reached from the real entry point) recursion fuel ran out. -/
inductive StopReason
  | noResults
  | exhausted
  | capped
  | fuelOut
deriving DecidableEq

/-- Per-page log entry: the page number, how many fetch attempts its
retry loop made, and how many content-extraction calls were made. -/
structure PageLog where
  page : Nat
  attempts : Nat
  extractions : Nat
deriving DecidableEq

/-- Trace of one source's pagination session: all collected records
(`all_news`), the batches sent to the event stream in order, the per-page
fetch log, and the stop reason. -/
structure SessionTrace where
  collected : List RawRecord
  published : List (List RawRecord)
  pages : List PageLog
  stop : StopReason
deriving DecidableEq

/-- The `while True` pagination loop of `crawl_scraper_source`
(src/main.py lines 37-68): run the retry loop for the current page; stop
on the no-results flag; stop when the batch is empty after retries;
otherwise publish the batch to the event stream, accumulate it, and stop
if `page_number > 20`, else advance to the next page.  `fetch page a`
describes what attempt `a` of page `page` observes.  Structural fuel
bounds the recursion; the loop itself stops after at most 21 pages. -/
def sessionGo (fetch : Nat → Nat → PageSpec) (rk : List String) :
    Nat → Nat → List String → SessionTrace
  | 0, _, _ => ⟨[], [], [], .fuelOut⟩
  | fuel + 1, page, seen =>
    let r := retryFetchPage (fetch page) rk seen
    let log : PageLog := ⟨page, r.attempts, r.extractions⟩
    if r.noResultsFound then ⟨[], [], [log], .noResults⟩
    else if r.news.isEmpty then ⟨[], [], [log], .exhausted⟩
    else if page > 20 then ⟨r.news, [r.news], [log], .capped⟩
    else
      let t := sessionGo fetch rk fuel (page + 1) r.seen
      ⟨r.news ++ t.collected, r.news :: t.published, log :: t.pages, t.stop⟩

/-- One full pagination session, starting at page 1 with an empty seen
set (src/main.py lines 31-68).  Fuel 25 exceeds the 21 pages the loop can
ever process. -/
def crawlSession (fetch : Nat → Nat → PageSpec) (rk : List String) :
    SessionTrace :=
  sessionGo fetch rk 25 1 []

/-- `os.getenv` over an environment modelled as an association list,
composed with Python's falsiness check `if not api_key` (unset and empty
both count as missing). -/
def getCredential (env : List (String × String)) (k : String) :
    Option String :=
  match (env.find? (fun p => p.fst == k)).map Prod.snd with
  | none => none
  | some v => if v == "" then none else some v

/-- Externally visible outcome of one source's unit of work: the list the
coroutine returns, the batches forwarded to the event stream, the number
of page-fetch attempts performed, and whether a CSV snapshot was
written. -/
structure SourceRun where
  result : List RawRecord
  published : List (List RawRecord)
  fetchAttempts : Nat
  snapshotWritten : Bool
deriving DecidableEq

/-- `crawl_scraper_source` (src/main.py lines 19-75): return `[]` at once
when the source's Gemini credential is missing; otherwise run the
pagination session, whose non-empty batches were sent to the event
stream, and write the CSV snapshot when anything was collected. -/
def crawl_scraper_source (env : List (String × String)) (keyEnv : String)
    (fetch : Nat → Nat → PageSpec) : SourceRun :=
  match getCredential env keyEnv with
  | none => ⟨[], [], 0, false⟩
  | some _ =>
    let t := crawlSession fetch REQUIRED_KEYS
    ⟨t.collected, t.published, (t.pages.map PageLog.attempts).sum,
      !t.collected.isEmpty⟩

/-- The per-item transformation of `process_newsdata_with_gemini`
(src/utils/api_scraper.py lines 57-66): build the common-schema record
from the provider-specific field names, defaulting each field to the
empty string (`provider` to `"newsdata"`) when the key is absent. -/
def transform_newsdata_item (item : RawRecord) : RawRecord :=
  [("title", getD item "title" ""),
   ("description", getD item "description" ""),
   ("url", getD item "link" ""),
   ("publishtime", getD item "pubDate" ""),
   ("provider", getD item "source_id" "newsdata")]

/-- `process_newsdata_with_gemini` (src/utils/api_scraper.py lines
34-68): return `[]` on an empty input, otherwise transform every raw item
in order. -/
def process_newsdata_with_gemini (raw : List RawRecord) : List RawRecord :=
  if raw.isEmpty then [] else raw.map transform_newsdata_item

/-- `crawl_api_source` (src/main.py lines 78-110): return `[]` at once
when either the newsdata credential or the source's Gemini credential is
missing; otherwise fetch once (the abstract `raw` payload), transform,
and publish plus snapshot only when the transformed list is non-empty. -/
def crawl_api_source (env : List (String × String)) (keyEnv : String)
    (raw : List RawRecord) : SourceRun :=
  match getCredential env "NEWSDATA_API_KEY" with
  | none => ⟨[], [], 0, false⟩
  | some _ =>
    match getCredential env keyEnv with
    | none => ⟨[], [], 0, false⟩
    | some _ =>
      let news := process_newsdata_with_gemini raw
      if news.isEmpty then ⟨news, [], 1, false⟩
      else ⟨news, [news], 1, true⟩

/-- A configured source as the orchestrator sees it: its credential
environment-variable name plus the abstract external world it will
observe (per-page per-attempt observations for a scraper source, the raw
API payload for the one-shot source). -/
inductive SourceCfg
  | scraper (keyEnv : String) (fetch : Nat → Nat → PageSpec)
  | api (keyEnv : String) (raw : List RawRecord)

/-- One source's unit of work as dispatched by `main`
(src/main.py lines 121-128). -/
def runSource (env : List (String × String)) : SourceCfg → SourceRun
  | .scraper k f => crawl_scraper_source env k f
  | .api k raw => crawl_api_source env k raw

/-- The orchestrator's fan-out: every configured source runs its own unit
of work against the shared read-only environment (src/main.py
lines 120-136). -/
def runAll (env : List (String × String)) (srcs : List SourceCfg) :
    List SourceRun :=
  srcs.map (runSource env)

/-- The result-aggregation loop of `main` (src/main.py lines 139-145):
with `return_exceptions=True`, each gathered outcome is either a result
list or a captured exception; the total counts only the non-exception
results. -/
def totalNews (results : List (Except String (List RawRecord))) : Nat :=
  results.foldl
    (fun acc r => match r with
      | .ok l => acc + l.length
      | .error _ => acc) 0

/-- The per-source record counts of the sources that completed without an
exception. -/
def okCounts (results : List (Except String (List RawRecord))) : List Nat :=
  results.filterMap
    (fun r => match r with
      | .ok l => some l.length
      | .error _ => none)

/-- The per-source report lines of `main`'s aggregation loop: a count for
each completed source, the captured error for each failed one. -/
def reported (results : List (Except String (List RawRecord))) :
    List (Except String Nat) :=
  results.map
    (fun r => match r with
      | .ok l => .ok l.length
      | .error e => .error e)

/-- The validation/dedup pipeline applied to a sequence of page batches
with the seen set threaded across pages, as `crawl_scraper_source` does
by passing the same `seen_names` set to every `fetch_and_process_page`
call of one session. -/
def processPages (rk : List String) :
    List (List RawRecord) → List String → List RawRecord × List String
  | [], seen => ([], seen)
  | b :: bs, seen =>
    let r := processBatch rk b seen
    let r2 := processPages rk bs r.2
    (r.1 ++ r2.1, r2.2)

/-- Number of records in `l` whose (trimmed) title is `c`. -/
def countClass (c : String) (l : List RawRecord) : Nat :=
  l.countP (fun r => strTrim (titleOf r) == c)

/-- Whether the seen set already contains a title in trim-class `c`. -/
def seenHas (c : String) (seen : List String) : Bool :=
  seen.any (fun s => strTrim s == c)

/-- A raw record that the Validator would accept (no error flag, complete
after dropping the error key, non-empty title) and whose trimmed title is
`c` — i.e. a record that is forwarded unless the Deduplicator rejects
it. -/
def candidate (rk : List String) (c : String) (r : RawRecord) : Bool :=
  !hasErrorFlag r && is_complete_news (eraseError r) rk
    && !(titleOf (eraseError r) == "")
    && (strTrim (titleOf (eraseError r)) == c)

/-- A fully valid demonstration record. -/
def demoValidRecord : RawRecord :=
  [("title", "t"), ("description", "d"), ("url", "u"),
   ("publishtime", "p"), ("provider", "pr")]

/-- A scraper world whose every page yields the same single valid
record (page 2 is then fully deduplicated away). -/
def demoFetchValid : Nat → Nat → PageSpec :=
  fun _ _ => ⟨false, some [demoValidRecord]⟩

/-- A scraper world whose page `n` yields one valid record with a fresh
title of `n` letters, so every page's batch is accepted and the session
only stops at the page cap. -/
def demoFetchFresh : Nat → Nat → PageSpec :=
  fun page _ =>
    ⟨false, some [[("title", String.mk (List.replicate page 'x')),
      ("description", "d"), ("url", "u"), ("publishtime", "p"),
      ("provider", "pr")]]⟩

/-- A scraper world whose every fetch fails with a transient outcome. -/
def demoFetchTransient : Nat → Nat → PageSpec :=
  fun _ _ => ⟨false, none⟩

/-- A scraper world whose every fetch parses one raw item that the
Validator rejects (it misses four of the five required fields). -/
def demoFetchRejected : Nat → Nat → PageSpec :=
  fun _ _ => ⟨false, some [[("title", "dup")]]⟩

/-- A scraper world whose every page shows the terminal
"No Results Found" marker. -/
def demoFetchTerminal : Nat → Nat → PageSpec :=
  fun _ _ => ⟨true, none⟩

/-- A record carrying all five required keys but an empty title. -/
def demoEmptyTitleRecord : RawRecord :=
  [("title", ""), ("description", "d"), ("url", "u"),
   ("publishtime", "p"), ("provider", "pr")]

/-- An environment carrying both credentials the one-shot API source
needs. -/
def demoApiEnv : List (String × String) :=
  [("NEWSDATA_API_KEY", "k"), ("GEMINI_API_KEY_3", "g")]

/-! ### Invariants of the validation/deduplication loop -/

theorem processBatch_mem_complete (rk : List String) :
    ∀ (data : List RawRecord) (seen : List String) (r : RawRecord),
      r ∈ (processBatch rk data seen).1 → is_complete_news r rk = true := by
  intro data
  induction data with
  | nil => intro seen r h; simp [processBatch] at h
  | cons news rest ih =>
    intro seen r h
    cases h1 : hasErrorFlag news with
    | true => rw [processBatch] at h; simp [h1] at h; exact ih seen r h
    | false =>
      cases h2 : is_complete_news (eraseError news) rk with
      | false =>
        rw [processBatch] at h; simp [h1, h2] at h
        exact ih seen r h
      | true =>
        cases h3 : titleOf (eraseError news) == "" with
        | true =>
          rw [processBatch] at h; simp [h1, h2, h3] at h
          exact ih seen r h
        | false =>
          cases h4 : is_duplicate_news (titleOf (eraseError news)) seen with
          | true =>
            rw [processBatch] at h; simp [h1, h2, h3, h4] at h
            exact ih seen r h
          | false =>
            rw [processBatch] at h; simp [h1, h2, h3, h4] at h
            rcases h with h | h
            · exact h ▸ h2
            · exact ih _ r h

theorem processBatch_seen_mem (rk : List String) :
    ∀ (data : List RawRecord) (seen : List String) (t : String),
      t ∈ (processBatch rk data seen).2 → t ∈ seen ∨ t ≠ "" := by
  intro data
  induction data with
  | nil => intro seen t h; simp [processBatch] at h; exact Or.inl h
  | cons news rest ih =>
    intro seen t h
    cases h1 : hasErrorFlag news with
    | true => rw [processBatch] at h; simp [h1] at h; exact ih seen t h
    | false =>
      cases h2 : is_complete_news (eraseError news) rk with
      | false =>
        rw [processBatch] at h; simp [h1, h2] at h; exact ih seen t h
      | true =>
        cases h3 : titleOf (eraseError news) == "" with
        | true =>
          rw [processBatch] at h; simp [h1, h2, h3] at h; exact ih seen t h
        | false =>
          cases h4 : is_duplicate_news (titleOf (eraseError news)) seen with
          | true =>
            rw [processBatch] at h; simp [h1, h2, h3, h4] at h
            exact ih seen t h
          | false =>
            rw [processBatch] at h; simp [h1, h2, h3, h4] at h
            rcases ih _ t h with hm | hne
            · rcases List.mem_cons.mp hm with hm | hm
              · refine Or.inr ?_
                intro he
                rw [hm] at he
                simp [he] at h3
              · exact Or.inl hm
            · exact Or.inr hne

theorem processBatch_empty_seen (rk : List String) :
    ∀ (data : List RawRecord) (seen : List String),
      (processBatch rk data seen).1 = [] →
      (processBatch rk data seen).2 = seen := by
  intro data
  induction data with
  | nil => intro seen _; simp [processBatch]
  | cons news rest ih =>
    intro seen h
    cases h1 : hasErrorFlag news with
    | true =>
      rw [processBatch] at h ⊢; simp [h1] at h ⊢; exact ih seen h
    | false =>
      cases h2 : is_complete_news (eraseError news) rk with
      | false =>
        rw [processBatch] at h ⊢; simp [h1, h2] at h ⊢; exact ih seen h
      | true =>
        cases h3 : titleOf (eraseError news) == "" with
        | true =>
          rw [processBatch] at h ⊢; simp [h1, h2, h3] at h ⊢; exact ih seen h
        | false =>
          cases h4 : is_duplicate_news (titleOf (eraseError news)) seen with
          | true =>
            rw [processBatch] at h ⊢; simp [h1, h2, h3, h4] at h ⊢
            exact ih seen h
          | false =>
            rw [processBatch] at h; simp [h1, h2, h3, h4] at h

theorem seenHas_cons (c t : String) (seen : List String) :
    seenHas c (t :: seen) = ((strTrim t == c) || seenHas c seen) := by
  simp [seenHas]

theorem is_duplicate_eq_seenHas (t : String) (seen : List String) :
    is_duplicate_news t seen = seenHas (strTrim t) seen := rfl

theorem processBatch_count (rk : List String) (c : String) :
    ∀ (data : List RawRecord) (seen : List String),
      seenHas c (processBatch rk data seen).2
          = (seenHas c seen || data.any (candidate rk c))
        ∧ countClass c (processBatch rk data seen).1
          = (if seenHas c seen = true then 0
             else if data.any (candidate rk c) = true then 1 else 0) := by
  intro data
  induction data with
  | nil => intro seen; simp [processBatch, countClass]
  | cons news rest ih =>
    intro seen
    cases h1 : hasErrorFlag news with
    | true =>
      have hc : candidate rk c news = false := by simp [candidate, h1]
      rw [processBatch]
      simpa [h1, hc] using ih seen
    | false =>
      cases h2 : is_complete_news (eraseError news) rk with
      | false =>
        have hc : candidate rk c news = false := by simp [candidate, h2]
        rw [processBatch]
        simpa [h1, h2, hc] using ih seen
      | true =>
        cases h3 : titleOf (eraseError news) == "" with
        | true =>
          have hc : candidate rk c news = false := by simp [candidate, h3]
          rw [processBatch]
          simpa [h1, h2, h3, hc] using ih seen
        | false =>
          cases h5 : strTrim (titleOf (eraseError news)) == c with
          | false =>
            have hc : candidate rk c news = false := by simp [candidate, h5]
            cases h4 : is_duplicate_news (titleOf (eraseError news)) seen with
            | true =>
              rw [processBatch]
              simpa [h1, h2, h3, h4, hc] using ih seen
            | false =>
              have hseen2 :
                  seenHas c (titleOf (eraseError news) :: seen)
                    = seenHas c seen := by
                rw [seenHas_cons, h5, Bool.false_or]
              rw [processBatch]
              have ihx := ih (titleOf (eraseError news) :: seen)
              rw [hseen2] at ihx
              simp only [h1, h2, h3, h4, Bool.not_true, Bool.not_false,
                if_false, if_true, Bool.false_eq_true, reduceIte]
              constructor
              · rw [ihx.1]
                simp [hc]
              · rw [countClass, List.countP_cons]
                have h6 := ihx.2
                rw [countClass] at h6
                rw [h6]
                simp [h5, hc]
          | true =>
            have hceq : strTrim (titleOf (eraseError news)) = c := by
              exact eq_of_beq h5
            have hcand : candidate rk c news = true := by
              simp [candidate, h1, h2, h3, h5]
            cases h4 : is_duplicate_news (titleOf (eraseError news)) seen with
            | true =>
              have hseen : seenHas c seen = true := by
                rw [← hceq]
                exact h4
              rw [processBatch]
              have ihx := ih seen
              simp only [h1, h2, h3, h4, Bool.not_true, Bool.not_false,
                if_false, if_true, Bool.false_eq_true, reduceIte]
              refine ⟨?_, ?_⟩
              · rw [ihx.1, hseen]
                simp
              · rw [ihx.2, hseen]
                simp [hseen]
            | false =>
              have hseen : seenHas c seen = false := by
                rw [← hceq]
                exact h4
              have hseen2 :
                  seenHas c (titleOf (eraseError news) :: seen) = true := by
                rw [seenHas_cons, h5, Bool.true_or]
              rw [processBatch]
              have ihx := ih (titleOf (eraseError news) :: seen)
              rw [hseen2] at ihx
              simp only [h1, h2, h3, h4, Bool.not_true, Bool.not_false,
                if_false, if_true, Bool.false_eq_true, reduceIte]
              refine ⟨?_, ?_⟩
              · rw [ihx.1]
                simp [hseen2, hcand]
              · rw [countClass, List.countP_cons]
                have h6 := ihx.2
                rw [countClass] at h6
                rw [h6]
                simp [h5, hseen, hcand]

/-! ### Lifting the invariants through the page-fetch adapter and the
retry loop -/

theorem fetch_mem_complete (p : PageSpec) (rk : List String)
    (seen : List String) (r : RawRecord)
    (h : r ∈ (fetch_and_process_page p rk seen).news) :
    is_complete_news r rk = true := by
  cases hm : p.marker with
  | true => simp [fetch_and_process_page, check_no_results, hm] at h
  | false =>
    cases hi : p.items with
    | none => simp [fetch_and_process_page, check_no_results, hm, hi] at h
    | some data =>
      cases he : data.isEmpty with
      | true => simp [fetch_and_process_page, check_no_results, hm, hi, he] at h
      | false =>
        simp only [fetch_and_process_page, check_no_results, hm, hi, he] at h
        simp at h
        exact processBatch_mem_complete rk data seen r h

theorem fetch_empty_seen (p : PageSpec) (rk : List String)
    (seen : List String)
    (h : (fetch_and_process_page p rk seen).news = []) :
    (fetch_and_process_page p rk seen).seen = seen := by
  cases hm : p.marker with
  | true => simp [fetch_and_process_page, check_no_results, hm]
  | false =>
    cases hi : p.items with
    | none => simp [fetch_and_process_page, check_no_results, hm, hi]
    | some data =>
      cases he : data.isEmpty with
      | true => simp [fetch_and_process_page, check_no_results, hm, hi, he]
      | false =>
        simp only [fetch_and_process_page, check_no_results, hm, hi, he] at h ⊢
        simp at h ⊢
        exact processBatch_empty_seen rk data seen h

theorem fetch_count (p : PageSpec) (rk : List String) (seen : List String)
    (c : String) :
    (seenHas c seen = true →
        countClass c (fetch_and_process_page p rk seen).news = 0
        ∧ seenHas c (fetch_and_process_page p rk seen).seen = true)
    ∧ (seenHas c seen = false →
        (countClass c (fetch_and_process_page p rk seen).news = 0
          ∧ seenHas c (fetch_and_process_page p rk seen).seen = false)
        ∨ (countClass c (fetch_and_process_page p rk seen).news = 1
          ∧ seenHas c (fetch_and_process_page p rk seen).seen = true)) := by
  cases hm : p.marker with
  | true =>
    simp [fetch_and_process_page, check_no_results, hm, countClass]
  | false =>
    cases hi : p.items with
    | none =>
      simp [fetch_and_process_page, check_no_results, hm, hi, countClass]
    | some data =>
      cases he : data.isEmpty with
      | true =>
        simp [fetch_and_process_page, check_no_results, hm, hi, he, countClass]
      | false =>
        have hpc := processBatch_count rk c data seen
        simp only [fetch_and_process_page, check_no_results, hm, hi, he]
        simp only [Bool.false_eq_true, if_false, reduceIte]
        constructor
        · intro hs
          rw [hs] at hpc
          refine ⟨?_, ?_⟩
          · rw [hpc.2]; simp
          · rw [hpc.1]; simp
        · intro hs
          rw [hs] at hpc
          cases ha : data.any (candidate rk c) with
          | false =>
            rw [ha] at hpc
            refine Or.inl ⟨?_, ?_⟩
            · rw [hpc.2]; simp
            · rw [hpc.1]; simp
          | true =>
            rw [ha] at hpc
            refine Or.inr ⟨?_, ?_⟩
            · rw [hpc.2]; simp
            · rw [hpc.1]; simp

theorem retryGo_mem_complete (fetchA : Nat → PageSpec) (rk : List String) :
    ∀ (atts : List Nat) (seen : List String) (att exs : Nat)
      (ws : List Nat) (r : RawRecord),
      r ∈ (retryGo fetchA rk atts seen att exs ws).news →
      is_complete_news r rk = true := by
  intro atts
  induction atts with
  | nil => intro seen att exs ws r h; simp [retryGo] at h
  | cons a rest ih =>
    intro seen att exs ws r h
    rw [retryGo] at h
    by_cases hb :
        (!(fetch_and_process_page (fetchA a) rk seen).news.isEmpty
          || (fetch_and_process_page (fetchA a) rk seen).noResultsFound) = true
    · simp only [hb, if_true] at h
      exact fetch_mem_complete (fetchA a) rk seen r h
    · simp only [Bool.not_eq_true] at hb
      simp only [hb, Bool.false_eq_true, if_false, reduceIte] at h
      exact ih _ _ _ _ r h

theorem retryGo_count (fetchA : Nat → PageSpec) (rk : List String)
    (c : String) :
    ∀ (atts : List Nat) (seen : List String) (att exs : Nat)
      (ws : List Nat),
      (seenHas c seen = true →
          countClass c (retryGo fetchA rk atts seen att exs ws).news = 0
          ∧ seenHas c (retryGo fetchA rk atts seen att exs ws).seen = true)
      ∧ (seenHas c seen = false →
          (countClass c (retryGo fetchA rk atts seen att exs ws).news = 0
            ∧ seenHas c (retryGo fetchA rk atts seen att exs ws).seen = false)
          ∨ (countClass c (retryGo fetchA rk atts seen att exs ws).news = 1
            ∧ seenHas c (retryGo fetchA rk atts seen att exs ws).seen
                = true)) := by
  intro atts
  induction atts with
  | nil =>
    intro seen att exs ws
    constructor
    · intro hs; simp [retryGo, countClass, hs]
    · intro hs; simp [retryGo, countClass, hs]
  | cons a rest ih =>
    intro seen att exs ws
    have hf := fetch_count (fetchA a) rk seen c
    rw [retryGo]
    by_cases hb :
        (!(fetch_and_process_page (fetchA a) rk seen).news.isEmpty
          || (fetch_and_process_page (fetchA a) rk seen).noResultsFound) = true
    · simp only [hb, if_true]
      exact hf
    · have hemp : (fetch_and_process_page (fetchA a) rk seen).news = [] := by
        simp only [Bool.or_eq_true, Bool.not_eq_true', not_or,
          Bool.not_eq_true] at hb
        simpa using hb.1
      have hseen := fetch_empty_seen (fetchA a) rk seen hemp
      simp only [Bool.not_eq_true] at hb
      simp only [hb, Bool.false_eq_true, if_false, reduceIte]
      rw [hseen]
      exact ih _ _ _ _

/-! ### Session-level invariants -/

theorem countClass_append (c : String) (a b : List RawRecord) :
    countClass c (a ++ b) = countClass c a + countClass c b := by
  simp [countClass, List.countP_append]

theorem sessionGo_published_complete (fetch : Nat → Nat → PageSpec)
    (rk : List String) :
    ∀ (fuel page : Nat) (seen : List String) (b : List RawRecord)
      (r : RawRecord),
      b ∈ (sessionGo fetch rk fuel page seen).published → r ∈ b →
      is_complete_news r rk = true := by
  intro fuel
  induction fuel with
  | zero => intro page seen b r hb _; simp [sessionGo] at hb
  | succ fuel ih =>
    intro page seen b r hb hr
    rw [sessionGo] at hb
    by_cases h1 : (retryFetchPage (fetch page) rk seen).noResultsFound = true
    · simp only [h1, if_true] at hb
      simp at hb
    · simp only [h1, Bool.false_eq_true, if_false, reduceIte] at hb
      by_cases h2 : (retryFetchPage (fetch page) rk seen).news.isEmpty = true
      · simp only [h2, if_true] at hb
        simp at hb
      · simp only [h2, Bool.false_eq_true, if_false, reduceIte] at hb
        by_cases h3 : page > 20
        · simp only [h3, if_true] at hb
          simp only [List.mem_singleton] at hb
          subst hb
          exact retryGo_mem_complete (fetch page) rk [0, 1, 2] seen 0 0 [] r hr
        · simp only [h3, if_false, reduceIte] at hb
          simp only [List.mem_cons] at hb
          rcases hb with hb | hb
          · subst hb
            exact retryGo_mem_complete (fetch page) rk [0, 1, 2] seen 0 0 [] r hr
          · exact ih _ _ b r hb hr

theorem sessionGo_count (fetch : Nat → Nat → PageSpec) (rk : List String)
    (c : String) :
    ∀ (fuel page : Nat) (seen : List String),
      (seenHas c seen = true →
        countClass c (sessionGo fetch rk fuel page seen).collected = 0)
      ∧ countClass c (sessionGo fetch rk fuel page seen).collected ≤ 1 := by
  intro fuel
  induction fuel with
  | zero => intro page seen; simp [sessionGo, countClass]
  | succ fuel ih =>
    intro page seen
    have hr := retryGo_count (fetch page) rk c [0, 1, 2] seen 0 0 []
    have hrw : retryGo (fetch page) rk [0, 1, 2] seen 0 0 []
        = retryFetchPage (fetch page) rk seen := rfl
    rw [hrw] at hr
    rw [sessionGo]
    by_cases h1 : (retryFetchPage (fetch page) rk seen).noResultsFound = true
    · simp only [h1, if_true]
      simp [countClass]
    · simp only [h1, Bool.false_eq_true, if_false, reduceIte]
      by_cases h2 : (retryFetchPage (fetch page) rk seen).news.isEmpty = true
      · simp only [h2, if_true]
        simp [countClass]
      · simp only [h2, Bool.false_eq_true, if_false, reduceIte]
        by_cases h3 : page > 20
        · simp only [h3, if_true]
          constructor
          · intro hs
            exact ((hr.1 hs).1 : _)
          · cases hs : seenHas c seen with
            | true => rw [(hr.1 hs).1]; omega
            | false =>
              rcases hr.2 hs with h | h
              · rw [h.1]; omega
              · rw [h.1]
        · simp only [h3, if_false, reduceIte]
          constructor
          · intro hs
            rw [countClass_append, (hr.1 hs).1,
              (ih (page + 1) (retryFetchPage (fetch page) rk seen).seen).1
                (hr.1 hs).2]
          · cases hs : seenHas c seen with
            | true =>
              rw [countClass_append, (hr.1 hs).1,
                (ih (page + 1) (retryFetchPage (fetch page) rk seen).seen).1
                  (hr.1 hs).2]
              omega
            | false =>
              rcases hr.2 hs with h | h
              · rw [countClass_append, h.1]
                have := (ih (page + 1)
                  (retryFetchPage (fetch page) rk seen).seen).2
                omega
              · rw [countClass_append, h.1,
                  (ih (page + 1) (retryFetchPage (fetch page) rk seen).seen).1
                    h.2]

theorem sessionGo_capped (fetch : Nat → Nat → PageSpec) (rk : List String) :
    ∀ (fuel page : Nat) (seen : List String),
      (sessionGo fetch rk fuel page seen).stop = StopReason.capped →
      page ≤ 21 →
      (sessionGo fetch rk fuel page seen).pages.map PageLog.page
          = List.range' page (22 - page)
        ∧ (sessionGo fetch rk fuel page seen).published.length
          = 22 - page := by
  intro fuel
  induction fuel with
  | zero => intro page seen hst _; simp [sessionGo] at hst
  | succ fuel ih =>
    intro page seen hst hpage
    rw [sessionGo] at hst ⊢
    by_cases h1 : (retryFetchPage (fetch page) rk seen).noResultsFound = true
    · simp only [h1, if_true] at hst
      simp at hst
    · simp only [h1, Bool.false_eq_true, if_false, reduceIte] at hst ⊢
      by_cases h2 : (retryFetchPage (fetch page) rk seen).news.isEmpty = true
      · simp only [h2, if_true] at hst
        simp at hst
      · simp only [h2, Bool.false_eq_true, if_false, reduceIte] at hst ⊢
        by_cases h3 : page > 20
        · have hp : page = 21 := by omega
          subst hp
          simp only [h3, if_true]
          simp [List.range']
        · simp only [h3, if_false, reduceIte] at hst ⊢
          have hx := ih (page + 1)
            (retryFetchPage (fetch page) rk seen).seen hst (by omega)
          constructor
          · simp only [List.map_cons, hx.1]
            rw [show 22 - page = (21 - page) + 1 from by omega,
              List.range'_succ]
            congr 1
            congr 1
            omega
          · simp only [List.length_cons, hx.2]
            omega

theorem processPages_count (rk : List String) (c : String) :
    ∀ (batches : List (List RawRecord)) (seen : List String),
      seenHas c (processPages rk batches seen).2
          = (seenHas c seen || batches.any (fun b => b.any (candidate rk c)))
        ∧ countClass c (processPages rk batches seen).1
          = (if seenHas c seen = true then 0
             else if batches.any (fun b => b.any (candidate rk c)) = true
               then 1 else 0) := by
  intro batches
  induction batches with
  | nil => intro seen; simp [processPages, countClass]
  | cons b bs ih =>
    intro seen
    have hb := processBatch_count rk c b seen
    have ihx := ih (processBatch rk b seen).2
    rw [processPages]
    simp only [countClass_append]
    cases hs : seenHas c seen with
    | true =>
      rw [hs] at hb
      have hb1 : seenHas c (processBatch rk b seen).2 = true := by
        rw [hb.1]; simp
      rw [hb1] at ihx
      constructor
      · rw [ihx.1]; simp
      · rw [hb.2, ihx.2]; simp
    | false =>
      rw [hs] at hb
      cases ha : b.any (candidate rk c) with
      | true =>
        rw [ha] at hb
        have hb1 : seenHas c (processBatch rk b seen).2 = true := by
          rw [hb.1]; simp
        rw [hb1] at ihx
        constructor
        · rw [ihx.1]; simp [ha]
        · rw [hb.2, ihx.2]; simp [ha]
      | false =>
        rw [ha] at hb
        have hb1 : seenHas c (processBatch rk b seen).2 = false := by
          rw [hb.1]; simp
        rw [hb1] at ihx
        constructor
        · rw [ihx.1]; simp [ha]
        · rw [hb.2, ihx.2]; simp [ha]

/-! ### Deterministic runs of the retry loop and the session loop -/

theorem fetch_marker_short_circuit (p : PageSpec) (rk : List String)
    (seen : List String) (hm : p.marker = true) :
    fetch_and_process_page p rk seen = ⟨[], true, seen, false⟩ := by
  simp [fetch_and_process_page, check_no_results, hm]

theorem retry_marker_short_circuit (fetchA : Nat → PageSpec)
    (rk : List String) (seen : List String)
    (hm : (fetchA 0).marker = true) :
    retryFetchPage fetchA rk seen = ⟨[], true, seen, 1, 0, []⟩ := by
  rw [retryFetchPage, retryGo,
    fetch_marker_short_circuit (fetchA 0) rk seen hm]
  simp

theorem sessionGo_marker_stop (fetch : Nat → Nat → PageSpec)
    (rk : List String) (fuel page : Nat) (seen : List String)
    (hm : (fetch page 0).marker = true) :
    sessionGo fetch rk (fuel + 1) page seen
      = ⟨[], [], [⟨page, 1, 0⟩], StopReason.noResults⟩ := by
  rw [sessionGo, retry_marker_short_circuit (fetch page) rk seen hm]
  simp

theorem retry_all_transient (fetchA : Nat → PageSpec) (rk : List String)
    (seen : List String)
    (H : ∀ (a : Nat) (s : List String),
      fetch_and_process_page (fetchA a) rk s = ⟨[], false, s, true⟩) :
    retryFetchPage fetchA rk seen = ⟨[], false, seen, 3, 3, [5, 5, 5]⟩ := by
  rw [retryFetchPage, retryGo, H 0 seen]
  simp only [List.isEmpty_nil, Bool.not_true, Bool.false_or,
    Bool.false_eq_true, if_false, reduceIte]
  rw [retryGo, H 1 seen]
  simp only [List.isEmpty_nil, Bool.not_true, Bool.false_or,
    Bool.false_eq_true, if_false, reduceIte]
  rw [retryGo, H 2 seen]
  simp only [List.isEmpty_nil, Bool.not_true, Bool.false_or,
    Bool.false_eq_true, if_false, reduceIte]
  rw [retryGo]
  rfl

theorem sessionGo_all_transient (fetch : Nat → Nat → PageSpec)
    (rk : List String) (fuel page : Nat) (seen : List String)
    (H : ∀ (a : Nat) (s : List String),
      fetch_and_process_page (fetch page a) rk s = ⟨[], false, s, true⟩) :
    sessionGo fetch rk (fuel + 1) page seen
      = ⟨[], [], [⟨page, 3, 3⟩], StopReason.exhausted⟩ := by
  rw [sessionGo, retry_all_transient (fetch page) rk seen H]
  simp

theorem fetch_all_rejected_shape (p : PageSpec) (rk : List String)
    (seen : List String) (hm : p.marker = false)
    (hi : p.items.isSome = true)
    (hn : (fetch_and_process_page p rk seen).news = []) :
    fetch_and_process_page p rk seen = ⟨[], false, seen, true⟩ := by
  cases hit : p.items with
  | none => rw [hit] at hi; simp at hi
  | some data =>
    cases he : data.isEmpty with
    | true => simp [fetch_and_process_page, check_no_results, hm, hit, he]
    | false =>
      simp only [fetch_and_process_page, check_no_results, hm, hit, he,
        Bool.false_eq_true, if_false, reduceIte] at hn ⊢
      have hs := processBatch_empty_seen rk data seen hn
      rw [hn, hs]

/-! ### Result aggregation of the orchestrator -/

theorem totalNews_shift :
    ∀ (results : List (Except String (List RawRecord))) (a : Nat),
      results.foldl
          (fun acc r => match r with
            | .ok l => acc + l.length
            | .error _ => acc) a
        = a + totalNews results := by
  intro results
  induction results with
  | nil => intro a; simp [totalNews]
  | cons r rest ih =>
    intro a
    cases r with
    | ok l =>
      simp only [totalNews, List.foldl_cons]
      rw [ih, ih]
      omega
    | error e =>
      simp only [totalNews, List.foldl_cons]
      rw [ih, ih]
      omega

theorem totalNews_eq_sum
    (results : List (Except String (List RawRecord))) :
    totalNews results = (okCounts results).sum := by
  induction results with
  | nil => simp [totalNews, okCounts]
  | cons r rest ih =>
    have hc : totalNews (r :: rest)
        = (match r with
            | Except.ok l => l.length
            | Except.error _ => 0) + totalNews rest := by
      simp only [totalNews, List.foldl_cons]
      rw [totalNews_shift]
      cases r <;> simp [totalNews]
    rw [hc, ih]
    cases r <;> simp [okCounts]

theorem totalNews_error_skip (xs ys : List (Except String (List RawRecord)))
    (e : String) :
    totalNews (xs ++ Except.error e :: ys) = totalNews (xs ++ ys) := by
  rw [totalNews_eq_sum, totalNews_eq_sum]
  simp [okCounts]

theorem complete_title_ne (r : RawRecord)
    (h : is_complete_news r REQUIRED_KEYS = true) : titleOf r ≠ "" := by
  simp only [is_complete_news, REQUIRED_KEYS, List.all_cons, List.all_nil,
    Bool.and_eq_true, bne_iff_ne, ne_eq] at h
  exact h.1

/-! ### The claims -/

/-- Claim C1, counterexample: the one-shot API path can forward a record
that violates the required-field contract.  With both credentials present
and one raw item that misses every provider field, `crawl_api_source`
publishes a batch containing a record whose `title`, `description`,
`url` and `publishtime` are all empty. -/
theorem C1_counterexample :
    (crawl_api_source demoApiEnv "GEMINI_API_KEY_3" [[]]).published.any
      (fun b => b.any (fun r => !(is_complete_news r REQUIRED_KEYS)))
      = true := by decide

/-- Claim C1, amended: every record published by the paginated-scraper
path carries non-empty values for all five required fields; every record
published by the one-shot API path carries all five required keys (their
values may be empty, since each field defaults to the empty string when
the raw item misses it). -/
theorem C1_published_contract :
    (∀ (fetch : Nat → Nat → PageSpec) (b : List RawRecord) (r : RawRecord),
        b ∈ (crawlSession fetch REQUIRED_KEYS).published → r ∈ b →
        is_complete_news r REQUIRED_KEYS = true)
    ∧ (∀ (env : List (String × String)) (keyEnv : String)
        (raw : List RawRecord) (b : List RawRecord) (r : RawRecord),
        b ∈ (crawl_api_source env keyEnv raw).published → r ∈ b →
        hasRequiredKeys r = true) := by
  constructor
  · intro fetch b r hb hr
    exact sessionGo_published_complete fetch REQUIRED_KEYS 25 1 [] b r hb hr
  · intro env keyEnv raw b r hb hr
    cases hc1 : getCredential env "NEWSDATA_API_KEY" with
    | none => simp [crawl_api_source, hc1] at hb
    | some v1 =>
      cases hc2 : getCredential env keyEnv with
      | none => simp [crawl_api_source, hc1, hc2] at hb
      | some v2 =>
        cases hne : (process_newsdata_with_gemini raw).isEmpty with
        | true => simp [crawl_api_source, hc1, hc2, hne] at hb
        | false =>
          simp only [crawl_api_source, hc1, hc2, hne, Bool.false_eq_true,
            if_false, reduceIte, List.mem_singleton] at hb
          subst hb
          rw [process_newsdata_with_gemini] at hr
          cases hre : raw.isEmpty with
          | true => simp [hre] at hr
          | false =>
            simp only [hre, Bool.false_eq_true, if_false, reduceIte] at hr
            rcases List.mem_map.mp hr with ⟨item, _, hitem⟩
            subst hitem
            rfl

/-- Claim C1, witness: the amended theorem applied to a session that
publishes one valid record and to an API run over one empty raw item. -/
theorem C1_published_contract_witness :
    is_complete_news demoValidRecord REQUIRED_KEYS = true
    ∧ hasRequiredKeys (transform_newsdata_item []) = true :=
  ⟨C1_published_contract.1 demoFetchValid [demoValidRecord] demoValidRecord
      (by decide) (by decide),
   C1_published_contract.2 demoApiEnv "GEMINI_API_KEY_3" [[]]
      (process_newsdata_with_gemini [[]]) (transform_newsdata_item [])
      (by decide) (by decide)⟩

/-- Claim C2: within one paginated session (seen set threaded across
pages, starting empty) at most one record of any trimmed-title class is
ever forwarded; and whenever some page batch of the session contains a
Validator-passing record of trimmed-title class `c` — in particular when
a title appears in more than one raw record, across pages or within one
page's batch — exactly one record of that class is forwarded. -/
theorem C2_dedup_idempotence :
    (∀ (fetch : Nat → Nat → PageSpec) (c : String),
        countClass c (crawlSession fetch REQUIRED_KEYS).collected ≤ 1)
    ∧ (∀ (batches : List (List RawRecord)) (c : String),
        batches.any (fun b => b.any (candidate REQUIRED_KEYS c)) = true →
        countClass c (processPages REQUIRED_KEYS batches []).1 = 1) := by
  constructor
  · intro fetch c
    exact (sessionGo_count fetch REQUIRED_KEYS c 25 1 []).2
  · intro batches c h
    have hx := (processPages_count REQUIRED_KEYS c batches []).2
    rw [hx]
    simp [seenHas, h]

/-- Claim C2, witness: a page batch holding the same valid record twice
forwards it exactly once. -/
theorem C2_dedup_idempotence_witness :
    ([[demoValidRecord, demoValidRecord]].any
        (fun b => b.any (candidate REQUIRED_KEYS "t")) = true)
    ∧ countClass "t"
        (processPages REQUIRED_KEYS [[demoValidRecord, demoValidRecord]] []).1
        = 1 :=
  ⟨by decide,
   C2_dedup_idempotence.2 [[demoValidRecord, demoValidRecord]] "t"
     (by decide)⟩

/-- Claim C3, counterexample: with a source whose every page fetch
succeeds with a fresh valid batch, the session does attempt a fetch of
page 21 — the cap check `page_number > 20` runs only after a page has
been fetched and published. -/
theorem C3_counterexample :
    ((crawlSession demoFetchFresh REQUIRED_KEYS).pages.map
      PageLog.page).contains 21 = true := by decide

/-- Claim C3, amended: a session that never returns a terminal or empty
outcome (equivalently, one that ends in the `Capped` state) processes
pages 1 through 21 — the cap check runs after the page's batch is
published, so page 21 is fetched and its batch published — and never
attempts a fetch of page 22. -/
theorem C3_cap_after_page21 :
    ∀ (fetch : Nat → Nat → PageSpec),
      (crawlSession fetch REQUIRED_KEYS).stop = StopReason.capped →
      (crawlSession fetch REQUIRED_KEYS).pages.map PageLog.page
          = List.range' 1 21
        ∧ (crawlSession fetch REQUIRED_KEYS).published.length = 21
        ∧ 22 ∉ (crawlSession fetch REQUIRED_KEYS).pages.map PageLog.page := by
  intro fetch h
  have hcs : crawlSession fetch REQUIRED_KEYS
      = sessionGo fetch REQUIRED_KEYS 25 1 [] := rfl
  rw [hcs] at h ⊢
  have hx := sessionGo_capped fetch REQUIRED_KEYS 25 1 [] h (by omega)
  have h21 : (22 : Nat) - 1 = 21 := rfl
  rw [h21] at hx
  refine ⟨hx.1, hx.2, ?_⟩
  rw [hx.1]
  decide

/-- Claim C3, witness: the amended theorem applied to the fresh-titles
world, whose session indeed ends `Capped`. -/
theorem C3_cap_after_page21_witness :
    (crawlSession demoFetchFresh REQUIRED_KEYS).stop = StopReason.capped
    ∧ (crawlSession demoFetchFresh REQUIRED_KEYS).pages.map PageLog.page
        = List.range' 1 21 :=
  ⟨by decide, (C3_cap_after_page21 demoFetchFresh (by decide)).1⟩

/-- Claim C4: a page whose every fetch attempt yields the transient
`([], False)` outcome is attempted exactly 3 times, with a 5-second wait
logged after each failed attempt (in particular between consecutive
attempts), and the session then stops `Exhausted` with exactly 3 fetch
attempts recorded for that page. -/
theorem C4_retry_bound :
    ∀ (fetch : Nat → Nat → PageSpec),
      (∀ (a : Nat) (s : List String),
        fetch_and_process_page (fetch 1 a) REQUIRED_KEYS s
          = ⟨[], false, s, true⟩) →
      retryFetchPage (fetch 1) REQUIRED_KEYS []
          = ⟨[], false, [], 3, 3, [5, 5, 5]⟩
        ∧ crawlSession fetch REQUIRED_KEYS
          = ⟨[], [], [⟨1, 3, 3⟩], StopReason.exhausted⟩ := by
  intro fetch H
  exact ⟨retry_all_transient (fetch 1) REQUIRED_KEYS [] H,
    sessionGo_all_transient fetch REQUIRED_KEYS 24 1 [] H⟩

/-- Claim C4, witness: the retry bound on the always-failing world. -/
theorem C4_retry_bound_witness :
    retryFetchPage (demoFetchTransient 1) REQUIRED_KEYS []
        = ⟨[], false, [], 3, 3, [5, 5, 5]⟩
    ∧ crawlSession demoFetchTransient REQUIRED_KEYS
        = ⟨[], [], [⟨1, 3, 3⟩], StopReason.exhausted⟩ :=
  C4_retry_bound demoFetchTransient (fun _ _ => rfl)

/-- Claim C5, counterexample: a page whose fetched items are all rejected
by the Validator is re-fetched — the trace records 3 fetch attempts and 3
extraction calls for page 1, not a single attempt, because the engine
cannot distinguish an all-rejected batch from a transient failure. -/
theorem C5_counterexample :
    crawlSession demoFetchRejected REQUIRED_KEYS
      = ⟨[], [], [⟨1, 3, 3⟩], StopReason.exhausted⟩ := by decide

/-- Claim C5, amended: when every fetch of a page parses items whose
valid batch is empty (all records rejected), the session does transition
to `Exhausted` and stop — but only after re-fetching the page up to the
3-attempt retry budget, since an all-rejected batch surfaces as the same
`([], False)` outcome as a transient failure. -/
theorem C5_all_rejected_retried :
    ∀ (fetch : Nat → Nat → PageSpec),
      (∀ (a : Nat) (s : List String),
        (fetch 1 a).marker = false
        ∧ (fetch 1 a).items.isSome = true
        ∧ (fetch_and_process_page (fetch 1 a) REQUIRED_KEYS s).news = []) →
      crawlSession fetch REQUIRED_KEYS
        = ⟨[], [], [⟨1, 3, 3⟩], StopReason.exhausted⟩ := by
  intro fetch H
  have H2 : ∀ (a : Nat) (s : List String),
      fetch_and_process_page (fetch 1 a) REQUIRED_KEYS s
        = ⟨[], false, s, true⟩ :=
    fun a s => fetch_all_rejected_shape (fetch 1 a) REQUIRED_KEYS s
      (H a s).1 (H a s).2.1 (H a s).2.2
  exact sessionGo_all_transient fetch REQUIRED_KEYS 24 1 [] H2

/-- Claim C5, witness: the amended theorem applied to the world whose
every fetch parses one item that misses four required fields. -/
theorem C5_all_rejected_retried_witness :
    (demoFetchRejected 1 0).items.isSome = true
    ∧ crawlSession demoFetchRejected REQUIRED_KEYS
        = ⟨[], [], [⟨1, 3, 3⟩], StopReason.exhausted⟩ :=
  ⟨rfl, C5_all_rejected_retried demoFetchRejected
    (fun _ _ => ⟨rfl, rfl, rfl⟩)⟩

/-- Claim C6: when the terminal-condition probe finds the no-results
marker, the page-fetch adapter returns the terminal outcome without an
extraction call, the retry loop ends after that single attempt with no
backoff waits, and the pagination loop stops at that page with the
no-results stop reason (1 attempt, 0 extraction calls logged). -/
theorem C6_terminal_short_circuit :
    (∀ (p : PageSpec) (rk : List String) (seen : List String),
        p.marker = true →
        fetch_and_process_page p rk seen = ⟨[], true, seen, false⟩)
    ∧ (∀ (fetchA : Nat → PageSpec) (rk : List String)
        (seen : List String),
        (fetchA 0).marker = true →
        retryFetchPage fetchA rk seen = ⟨[], true, seen, 1, 0, []⟩)
    ∧ (∀ (fetch : Nat → Nat → PageSpec) (rk : List String)
        (fuel page : Nat) (seen : List String),
        (fetch page 0).marker = true →
        sessionGo fetch rk (fuel + 1) page seen
          = ⟨[], [], [⟨page, 1, 0⟩], StopReason.noResults⟩) :=
  ⟨fun p rk seen h => fetch_marker_short_circuit p rk seen h,
   fun fetchA rk seen h => retry_marker_short_circuit fetchA rk seen h,
   fun fetch rk fuel page seen h =>
     sessionGo_marker_stop fetch rk fuel page seen h⟩

/-- Claim C6, witness: the terminal short-circuit on the world whose
every page shows the marker. -/
theorem C6_terminal_short_circuit_witness :
    fetch_and_process_page (demoFetchTerminal 1 0) REQUIRED_KEYS []
        = ⟨[], true, [], false⟩
    ∧ retryFetchPage (demoFetchTerminal 1) REQUIRED_KEYS []
        = ⟨[], true, [], 1, 0, []⟩
    ∧ sessionGo demoFetchTerminal REQUIRED_KEYS 25 1 []
        = ⟨[], [], [⟨1, 1, 0⟩], StopReason.noResults⟩ :=
  ⟨C6_terminal_short_circuit.1 (demoFetchTerminal 1 0) REQUIRED_KEYS [] rfl,
   C6_terminal_short_circuit.2.1 (demoFetchTerminal 1) REQUIRED_KEYS [] rfl,
   C6_terminal_short_circuit.2.2 demoFetchTerminal REQUIRED_KEYS 24 1 [] rfl⟩

/-- Claim C7: the aggregation loop of `main` counts exactly the sources
that completed without an exception — the total equals the sum of the
surviving sources' counts — and a captured exception in one slot neither
changes the total contributed by the other slots nor prevents any other
slot's result from being reported. -/
theorem C7_fault_isolation :
    (∀ (results : List (Except String (List RawRecord))),
        totalNews results = (okCounts results).sum)
    ∧ (∀ (xs ys : List (Except String (List RawRecord))) (e : String),
        totalNews (xs ++ Except.error e :: ys) = totalNews (xs ++ ys)
        ∧ reported (xs ++ Except.error e :: ys)
          = reported xs ++ Except.error e :: reported ys) := by
  constructor
  · exact totalNews_eq_sum
  · intro xs ys e
    exact ⟨totalNews_error_skip xs ys e, by simp [reported]⟩

/-- Claim C8: a source whose required credential is missing (unset or
empty) returns an empty result with zero fetch attempts, zero published
batches and no snapshot — for both the scraper path and the one-shot API
path (either missing credential) — and every source's run depends only
on the shared environment and its own descriptor, so the other sources
are unaffected. -/
theorem C8_missing_credential :
    (∀ (env : List (String × String)) (keyEnv : String)
        (fetch : Nat → Nat → PageSpec),
        getCredential env keyEnv = none →
        crawl_scraper_source env keyEnv fetch = ⟨[], [], 0, false⟩)
    ∧ (∀ (env : List (String × String)) (keyEnv : String)
        (raw : List RawRecord),
        getCredential env "NEWSDATA_API_KEY" = none
          ∨ getCredential env keyEnv = none →
        crawl_api_source env keyEnv raw = ⟨[], [], 0, false⟩)
    ∧ (∀ (env : List (String × String)) (srcs : List SourceCfg) (j : Nat),
        (runAll env srcs)[j]? = (srcs[j]?).map (runSource env)) := by
  refine ⟨?_, ?_, ?_⟩
  · intro env k fetch h
    simp [crawl_scraper_source, h]
  · intro env k raw h
    rcases h with h | h
    · simp [crawl_api_source, h]
    · cases hc : getCredential env "NEWSDATA_API_KEY" with
      | none => simp [crawl_api_source, hc]
      | some v => simp [crawl_api_source, hc, h]
  · intro env srcs j
    simp [runAll]

/-- Claim C8, witness: both paths on an environment that carries neither
credential. -/
theorem C8_missing_credential_witness :
    crawl_scraper_source [("OTHER", "x")] "GEMINI_API_KEY_1" demoFetchValid
        = ⟨[], [], 0, false⟩
    ∧ crawl_api_source [("OTHER", "x")] "GEMINI_API_KEY_3"
        [[("title", "t")]] = ⟨[], [], 0, false⟩ :=
  ⟨C8_missing_credential.1 [("OTHER", "x")] "GEMINI_API_KEY_1"
      demoFetchValid rfl,
   C8_missing_credential.2.1 [("OTHER", "x")] "GEMINI_API_KEY_3"
      [[("title", "t")]] (Or.inl rfl)⟩

/-- Claim C9: the one-shot transform produces exactly one output record
per raw item, in the same order (it is the elementwise map of
`transform_newsdata_item`), and each output maps the provider-specific
names 1:1 onto the common schema: `url` from `link`, `publishtime` from
`pubDate`, `provider` from `source_id` (defaulting to "newsdata"). -/
theorem C9_api_transform :
    ∀ (raw : List RawRecord),
      process_newsdata_with_gemini raw = raw.map transform_newsdata_item
      ∧ (process_newsdata_with_gemini raw).length = raw.length
      ∧ (∀ (item : RawRecord),
          getField (transform_newsdata_item item) "title"
              = some (getD item "title" "")
          ∧ getField (transform_newsdata_item item) "description"
              = some (getD item "description" "")
          ∧ getField (transform_newsdata_item item) "url"
              = some (getD item "link" "")
          ∧ getField (transform_newsdata_item item) "publishtime"
              = some (getD item "pubDate" "")
          ∧ getField (transform_newsdata_item item) "provider"
              = some (getD item "source_id" "newsdata")) := by
  intro raw
  refine ⟨?_, ?_, ?_⟩
  · cases raw with
    | nil => rfl
    | cons a l => rfl
  · cases raw with
    | nil => rfl
    | cons a l => simp [process_newsdata_with_gemini]
  · intro item
    exact ⟨rfl, rfl, rfl, rfl, rfl⟩

/-- Claim C10: a raw record in a page batch that carries all five
required keys but an empty `title` never reaches the page's valid batch,
and the seen-titles set never gains an empty title (every title it gains
beyond the initial set is non-empty). -/
theorem C10_empty_title_rejected :
    ∀ (data : List RawRecord) (seen : List String) (news : RawRecord),
      news ∈ data → hasRequiredKeys news = true →
      titleOf (eraseError news) = "" →
      eraseError news ∉ (processBatch REQUIRED_KEYS data seen).1
      ∧ (∀ t ∈ (processBatch REQUIRED_KEYS data seen).2,
          t ∈ seen ∨ t ≠ "") := by
  intro data seen news _ _ ht
  constructor
  · intro hmem
    have hc := processBatch_mem_complete REQUIRED_KEYS data seen
      (eraseError news) hmem
    exact complete_title_ne (eraseError news) hc ht
  · exact fun t h => processBatch_seen_mem REQUIRED_KEYS data seen t h

/-- Claim C10, witness: the theorem applied to a batch holding one
record with all five keys present and an empty title. -/
theorem C10_empty_title_rejected_witness :
    hasRequiredKeys demoEmptyTitleRecord = true
    ∧ eraseError demoEmptyTitleRecord
        ∉ (processBatch REQUIRED_KEYS [demoEmptyTitleRecord] []).1 :=
  ⟨by decide,
   (C10_empty_title_rejected [demoEmptyTitleRecord] [] demoEmptyTitleRecord
     (by decide) (by decide) (by decide)).1⟩

end NewsCrawler
